import Mathlib

/-!
Shallow embedding of the cache consistency subsystem of the RSVP backend
(`src/utils/cache.ts`, `src/consumers/analyticsConsumer.ts` cache consumer,
`src/controllers/rsvpController.ts`, `src/events/producer.ts`).

Redis is modelled as explicit state: the counter key as an `Option Int`,
the page cache and the key-status cache as association lists.  JavaScript
values flowing into the cache are modelled by the inductive type `JVal`
(JSON serialization round-trips are the identity on this type, so
`JSON.stringify`/`JSON.parse` pairs are not modelled separately).
Functions with concurrent interference (`getCachedPageWithLock`,
`getCachedCountWithLock`) are modelled against an oracle that supplies the
result of each successive cache read and lock attempt, and they return a
trace of the effects they performed.
-/

namespace RSVPCache

/-! ### Association list helpers (model of redis GET/SET/DEL on a key space) -/

def getAssoc {α β : Type} [DecidableEq α] (k : α) : List (α × β) → Option β
  | [] => none
  | (k', v) :: rest => if k' = k then some v else getAssoc k rest

def setAssoc {α β : Type} [DecidableEq α] (k : α) (v : β) : List (α × β) → List (α × β)
  | [] => [(k, v)]
  | (k', v') :: rest => if k' = k then (k, v) :: rest else (k', v') :: setAssoc k v rest

def removeAssoc {α β : Type} [DecidableEq α] (k : α) : List (α × β) → List (α × β)
  | [] => []
  | (k', v') :: rest => if k' = k then removeAssoc k rest else (k', v') :: removeAssoc k rest

/-! ### JavaScript values -/

/-- JSON-serializable JavaScript values (the `any` payloads of cache.ts).
`jobj` carries its fields in insertion order. -/
inductive JVal : Type where
  | jnull : JVal
  | jstr : String → JVal
  | jnum : Int → JVal
  | jbool : Bool → JVal
  | jarr : List JVal → JVal
  | jobj : List (String × JVal) → JVal

/-- Property lookup on an object's field list (first binding wins). -/
def lookupField (fields : List (String × JVal)) (k : String) : Option JVal :=
  getAssoc k fields

/-- The fixed field whitelist of `sanitizeData` in cache.ts
(`const { id, name, email, created_at } = item`). -/
def whitelist : List String := ["id", "name", "email", "created_at"]

/-- One array item inside `sanitizeData`'s `data.map`: an object item is
destructured to `{ id, name, email, created_at }` (absent properties become
`undefined` and are dropped by JSON serialization, so the model keeps only the
present whitelisted keys, in the literal's insertion order); an array item is
`typeof 'object'` too, and destructuring named properties out of a plain array
yields no whitelisted keys; every other item is returned unchanged
(cache.ts line 44 `return item`). -/
def sanitizeItem : JVal → JVal
  | JVal.jobj fields =>
      JVal.jobj (whitelist.filterMap fun k => (lookupField fields k).map fun v => (k, v))
  | JVal.jarr _ => JVal.jobj []
  | v => v

/-- `sanitizeData` of cache.ts lines 34-48: `null` (i.e. `none`) for falsy or
non-object input, a per-item shallow projection for arrays, and — verbatim,
unsanitized — the input itself for any other object. -/
def sanitizeData : JVal → Option JVal
  | JVal.jarr items => some (JVal.jarr (items.map sanitizeItem))
  | JVal.jobj fields => some (JVal.jobj fields)
  | _ => none

/-! ### Cache store state and the pure cache operations -/

/-- cache.ts `ATTENDEE_PAGE_TTL = 60`. -/
def ATTENDEE_PAGE_TTL : Nat := 60

/-- cache.ts `COUNT_TTL = 3600`. -/
def COUNT_TTL : Nat := 3600

/-- cache.ts `USER_RSVP_TTL = 600`. -/
def USER_RSVP_TTL : Nat := 600

/-- cache.ts `MAX_RETRY_ATTEMPTS = 3`. -/
def MAX_RETRY_ATTEMPTS : Nat := 3

/-- cache.ts `RETRY_DELAY_MS = 100`. -/
def RETRY_DELAY_MS : Nat := 100

/-- The redis state visible to cache.ts, split by the disjoint key namespaces
`rsvps:attendees:page:*`, `rsvps:count`, `rsvps:user:*`, `rsvps:lock:*`.
Page and user entries record the TTL they were stored with. -/
structure Store : Type where
  pages : List ((Nat × Nat) × (JVal × Nat))
  countVal : Option Int
  users : List (String × (JVal × Nat))
  locks : List String

def emptyStore : Store := ⟨[], none, [], []⟩

/-- cache.ts `getUserRSVPCacheKey`: the identity key is
`email.toLowerCase().trim()`. -/
def normalizeEmail (email : String) : String := email.toLower.trim

/-- cache.ts `setCachedPage`: sanitize, skip the write when the sanitized
value is falsy, otherwise `setEx` with `ATTENDEE_PAGE_TTL`. -/
def setCachedPage (page limit : Nat) (data : JVal) (s : Store) : Store :=
  match sanitizeData data with
  | none => s
  | some v => { s with pages := setAssoc (page, limit) (v, ATTENDEE_PAGE_TTL) s.pages }

/-- cache.ts `getCachedPage`: `get`, parse, and sanitize again on the way out;
`null` on a missing key. -/
def getCachedPage (page limit : Nat) (s : Store) : Option JVal :=
  match getAssoc (page, limit) s.pages with
  | none => none
  | some (v, _) => sanitizeData v

/-- cache.ts `getAtomicCount`: the parsed stored value, `null` when the key is
absent (a stored `"0"` is a truthy string, so a stored zero is returned as 0). -/
def getAtomicCount (s : Store) : Option Int := s.countVal

/-- redis `INCR`: a missing key counts as 0. -/
def redisIncr : Option Int → Int
  | none => 1
  | some v => v + 1

/-- redis `DECR`: a missing key counts as 0. -/
def redisDecr : Option Int → Int
  | none => -1
  | some v => v - 1

/-- cache.ts `incrementCount`: `INCR` then `EXPIRE`; returns the new value. -/
def incrementCount (s : Store) : Store × Int :=
  let n := redisIncr s.countVal
  ({ s with countVal := some n }, n)

/-- cache.ts `decrementCount`: `DECR`; if the result is negative the stored
value is reset to `'0'` and 0 is returned, otherwise the new value is
returned. -/
def decrementCount (s : Store) : Store × Int :=
  let n := redisDecr s.countVal
  if n < 0 then ({ s with countVal := some 0 }, 0)
  else ({ s with countVal := some n }, n)

/-- cache.ts `setAtomicCount`: `setEx` with `COUNT_TTL`. -/
def setAtomicCount (count : Int) (s : Store) : Store :=
  { s with countVal := some count }

/-- cache.ts `invalidateCount`: `DEL` of the count key. -/
def invalidateCount (s : Store) : Store :=
  { s with countVal := none }

/-- cache.ts `invalidatePage`: `DEL` of one page key. -/
def invalidatePage (page limit : Nat) (s : Store) : Store :=
  { s with pages := removeAssoc (page, limit) s.pages }

/-- cache.ts `setUserRSVP`: serializes `rsvpData` verbatim (no sanitization)
under the normalized email key, with `USER_RSVP_TTL`. -/
def setUserRSVP (email : String) (rsvpData : JVal) (s : Store) : Store :=
  { s with users := setAssoc (normalizeEmail email) (rsvpData, USER_RSVP_TTL) s.users }

/-- cache.ts `getUserRSVP`: parse of the stored serialization, `null` when the
key is absent. -/
def getUserRSVP (email : String) (s : Store) : Option JVal :=
  (getAssoc (normalizeEmail email) s.users).map Prod.fst

/-- cache.ts `invalidateUserRSVP`: `DEL` of the normalized email key. -/
def invalidateUserRSVP (email : String) (s : Store) : Store :=
  { s with users := removeAssoc (normalizeEmail email) s.users }

/-- Modelled from the spec: `invalidateAllPageCaches` is imported by the cache
consumer from `utils/cache` but its definition is not among the repository's
source files (only this caller is).  The spec's Invalidation Consumer step
"invalidate Paginated Cache" broadly clears the paginated cache, so the model
removes every page entry. -/
def invalidateAllPageCaches (s : Store) : Store :=
  { s with pages := [] }

/-! ### Counter operation sequences -/

/-- A write-path counter operation (the only mutators the consumers use). -/
inductive CounterOp : Type where
  | inc : CounterOp
  | dec : CounterOp
  deriving Repr, DecidableEq

def applyCounterOp (s : Store) : CounterOp → Store
  | CounterOp.inc => (incrementCount s).1
  | CounterOp.dec => (decrementCount s).1

def applyCounterOps (s : Store) (ops : List CounterOp) : Store :=
  ops.foldl applyCounterOp s

/-! ### Invalidation Consumer (cacheConsumer in analyticsConsumer.ts) -/

/-- The `event.data` payload as the cache consumer reads it; every field is
optional because the handlers guard with JavaScript truthiness. -/
structure EventData : Type where
  rsvpId : Option Int
  email : Option String
  name : Option String
  createdAt : Option String

/-- JS truthiness of an optional string (`undefined` and `""` are falsy). -/
def truthyStr : Option String → Bool
  | none => false
  | some s => !s.isEmpty

/-- JS truthiness of an optional number (`undefined` and `0` are falsy). -/
def truthyNum : Option Int → Bool
  | none => false
  | some n => n != 0

/-- The user entry object literal built by `handleRSVPCreated`:
`{ id, name, email, created_at }` with `undefined` fields dropped by JSON
serialization. -/
def createdUserEntry (ev : EventData) : JVal :=
  JVal.jobj
    ((ev.rsvpId.map fun i => ("id", JVal.jnum i)).toList ++
     (ev.name.map fun n => ("name", JVal.jstr n)).toList ++
     (ev.email.map fun e => ("email", JVal.jstr e)).toList ++
     (ev.createdAt.map fun c => ("created_at", JVal.jstr c)).toList)

/-- An observable cache operation performed by a consumer handler. -/
inductive CacheOp : Type where
  | incr : Int → CacheOp
  | decr : Int → CacheOp
  | delCount : CacheOp
  | clearPages : CacheOp
  | setUser : String → JVal → CacheOp
  | delUser : String → CacheOp

/-- `CacheConsumer.handleRSVPCreated`: increment the counter, invalidate the
counter, invalidate all page caches, and — when `event.data.email` and
`event.data.rsvpId` are both truthy — set the key-status entry for the new
identity. -/
def handleRSVPCreated (ev : EventData) (s : Store) : Store × List CacheOp :=
  let (s1, n) := incrementCount s
  let s2 := invalidateCount s1
  let s3 := invalidateAllPageCaches s2
  if truthyStr ev.email && truthyNum ev.rsvpId then
    let e := ev.email.getD ""
    (setUserRSVP e (createdUserEntry ev) s3,
     [CacheOp.incr n, CacheOp.delCount, CacheOp.clearPages,
      CacheOp.setUser (normalizeEmail e) (createdUserEntry ev)])
  else
    (s3, [CacheOp.incr n, CacheOp.delCount, CacheOp.clearPages])

/-- `CacheConsumer.handleRSVPDeleted` (also used for cancelled events):
decrement the counter, invalidate the counter, invalidate all page caches,
and — when `event.data.email` is truthy — invalidate the key-status entry. -/
def handleRSVPDeleted (ev : EventData) (s : Store) : Store × List CacheOp :=
  let (s1, n) := decrementCount s
  let s2 := invalidateCount s1
  let s3 := invalidateAllPageCaches s2
  if truthyStr ev.email then
    let e := ev.email.getD ""
    (invalidateUserRSVP e s3,
     [CacheOp.decr n, CacheOp.delCount, CacheOp.clearPages,
      CacheOp.delUser (normalizeEmail e)])
  else
    (s3, [CacheOp.decr n, CacheOp.delCount, CacheOp.clearPages])

/-! ### getCachedPageWithLock against a read/lock oracle

Concurrent writers can change the cache between the reads the function makes,
so each successive `getCachedPage` result and each `acquireLock` outcome is
supplied by an oracle list; an exhausted oracle answers `none` / `false`.
The function returns the result together with the trace of effects. -/

/-- Effects performed by `getCachedPageWithLock`. -/
inductive PEff : Type where
  | readPage : PEff
  | lockAttempt : Bool → PEff
  | sleep : Nat → PEff
  | fetchCall : PEff
  | setPage : Nat → Nat → JVal → PEff
  | releaseLock : PEff

/-- Errors thrown by `getCachedPageWithLock`. -/
inductive PageErr : Type where
  | lockFailed : PageErr
  | fetchThrown : PageErr
  | retriesExhausted : PageErr
  deriving Repr, DecidableEq

def nextRead {α : Type} : List (Option α) → Option α × List (Option α)
  | [] => (none, [])
  | r :: rest => (r, rest)

def nextLock : List Bool → Bool × List Bool
  | [] => (false, [])
  | b :: rest => (b, rest)

/-- The `while (attempt < MAX_RETRY_ATTEMPTS)` loop of
`getCachedPageWithLock` (cache.ts lines 209-260), with `fuel = MAX_RETRY_ATTEMPTS - attempt`.
Each iteration: read the cache (hit returns); try the lock; on lock failure
increment `attempt` and either sleep `RETRY_DELAY_MS * attempt` and loop, or —
on the final attempt — return stale data if present else throw; on lock
success double-check the cache (hit returns), call the fetch function, store
its result via `setCachedPage`, and return it, releasing the lock in a
`finally`; a thrown fetch falls back to stale data before rethrowing. -/
def runPageLoop (page limit : Nat) (fetch : Except Unit JVal) :
    Nat → Nat → List (Option JVal) → List Bool → Except PageErr JVal × List PEff
  | 0, _, _, _ => (Except.error PageErr.retriesExhausted, [])
  | fuel + 1, attempt, reads, locks =>
    let (r, reads1) := nextRead reads
    match r with
    | some v => (Except.ok v, [PEff.readPage])
    | none =>
      let (lk, locks1) := nextLock locks
      if lk then
        let (r2, reads2) := nextRead reads1
        match r2 with
        | some v =>
            (Except.ok v,
             [PEff.readPage, PEff.lockAttempt true, PEff.readPage, PEff.releaseLock])
        | none =>
          match fetch with
          | Except.ok d =>
              (Except.ok d,
               [PEff.readPage, PEff.lockAttempt true, PEff.readPage, PEff.fetchCall,
                PEff.setPage page limit d, PEff.releaseLock])
          | Except.error _ =>
            let (r3, _) := nextRead reads2
            match r3 with
            | some v =>
                (Except.ok v,
                 [PEff.readPage, PEff.lockAttempt true, PEff.readPage, PEff.fetchCall,
                  PEff.readPage, PEff.releaseLock])
            | none =>
                (Except.error PageErr.fetchThrown,
                 [PEff.readPage, PEff.lockAttempt true, PEff.readPage, PEff.fetchCall,
                  PEff.readPage, PEff.releaseLock])
      else
        if attempt + 1 < MAX_RETRY_ATTEMPTS then
          let rec' := runPageLoop page limit fetch fuel (attempt + 1) reads1 locks1
          (rec'.1,
           [PEff.readPage, PEff.lockAttempt false,
            PEff.sleep (RETRY_DELAY_MS * (attempt + 1))] ++ rec'.2)
        else
          let (r3, _) := nextRead reads1
          match r3 with
          | some v =>
              (Except.ok v, [PEff.readPage, PEff.lockAttempt false, PEff.readPage])
          | none =>
              (Except.error PageErr.lockFailed,
               [PEff.readPage, PEff.lockAttempt false, PEff.readPage])

/-- cache.ts `getCachedPageWithLock`, entered with `attempt = 0`. -/
def getCachedPageWithLock (page limit : Nat) (fetch : Except Unit JVal)
    (reads : List (Option JVal)) (locks : List Bool) :
    Except PageErr JVal × List PEff :=
  runPageLoop page limit fetch MAX_RETRY_ATTEMPTS 0 reads locks

/-! ### getCachedCountWithLock against a read/lock oracle -/

/-- Effects performed by `getCachedCountWithLock`. -/
inductive CEff : Type where
  | readCount : CEff
  | lockAttempt : Bool → CEff
  | fetchCall : CEff
  | setCount : Int → CEff
  | releaseLock : CEff
  deriving Repr, DecidableEq

/-- Errors thrown by `getCachedCountWithLock`. -/
inductive CountErr : Type where
  | lockFailed : CountErr
  | fetchThrown : CountErr
  deriving Repr, DecidableEq

/-- The guard `cached !== null && cached > 0` of `getCachedCountWithLock`:
the value counts as a usable hit only when present AND strictly positive. -/
def countHit : Option Int → Option Int
  | none => none
  | some v => if v > 0 then some v else none

/-- cache.ts `getCachedCountWithLock` (lines 262-293): return the cached
count when present and positive; otherwise acquire the count lock (ttl 5);
on failure return a stale positive count or throw; on success double-check,
then fetch, `setAtomicCount` the fetched value, release the lock in a
`finally`, and return it. -/
def getCachedCountWithLock (fetch : Except Unit Int)
    (reads : List (Option Int)) (lockOk : Bool) :
    Except CountErr Int × List CEff :=
  let (r, reads1) := nextRead reads
  match countHit r with
  | some v => (Except.ok v, [CEff.readCount])
  | none =>
    if lockOk then
      let (r2, _) := nextRead reads1
      match countHit r2 with
      | some v =>
          (Except.ok v,
           [CEff.readCount, CEff.lockAttempt true, CEff.readCount, CEff.releaseLock])
      | none =>
        match fetch with
        | Except.ok c =>
            (Except.ok c,
             [CEff.readCount, CEff.lockAttempt true, CEff.readCount, CEff.fetchCall,
              CEff.setCount c, CEff.releaseLock])
        | Except.error _ =>
            (Except.error CountErr.fetchThrown,
             [CEff.readCount, CEff.lockAttempt true, CEff.readCount, CEff.fetchCall,
              CEff.releaseLock])
    else
      let (r2, _) := nextRead reads1
      match countHit r2 with
      | some v =>
          (Except.ok v, [CEff.readCount, CEff.lockAttempt false, CEff.readCount])
      | none =>
          (Except.error CountErr.lockFailed,
           [CEff.readCount, CEff.lockAttempt false, CEff.readCount])

/-! ### getAllRSVPs pagination parameters (rsvpController.ts lines 81-82) -/

/-- Model of the JavaScript builtin `parseInt` in base 10: skip leading
whitespace, read an optional sign, parse the leading run of decimal digits,
`NaN` (here `none`) when that run is empty. -/
def parseIntJS (s : String) : Option Int :=
  let cs := s.toList.dropWhile Char.isWhitespace
  let signed : List Char → Bool × List Char := fun l =>
    match l with
    | '-' :: rest => (true, rest)
    | '+' :: rest => (false, rest)
    | _ => (false, l)
  let (neg, body) := signed cs
  let digits := body.takeWhile Char.isDigit
  if digits.isEmpty then none
  else
    let n : Nat := digits.foldl (fun a c => a * 10 + (c.toNat - 48)) 0
    some (if neg then -(n : Int) else (n : Int))

/-- JavaScript `x || d` on a number: `NaN` and `0` are falsy and yield the
default. -/
def orDefault (v : Option Int) (d : Int) : Int :=
  match v with
  | none => d
  | some 0 => d
  | some n => n

/-- `Math.max(1, parseInt(req.query.page as string) || 1)`; a missing query
parameter parses to `NaN`. -/
def effectivePage (q : Option String) : Int :=
  max 1 (orDefault (q.bind parseIntJS) 1)

/-- `Math.min(100, Math.max(1, parseInt(req.query.limit as string) || 20))`. -/
def effectiveLimit (q : Option String) : Int :=
  min 100 (max 1 (orDefault (q.bind parseIntJS) 20))

/-! ### createRSVP (rsvpController.ts lines 17-77)

The path after validation and sanitization has passed: insert the row
(auto-committing single statement), publish the domain event, fire the
cancellation email without awaiting it, respond 201.  A unique-constraint
violation on the insert throws with code '23505' and is answered 409; any
other thrown error — in particular a rethrown publish failure — is answered
500.  Nothing ever deletes the inserted row on the error path. -/

/-- A committed row of the `rsvps` table (the columns the handler returns). -/
structure DBRow : Type where
  name : String
  email : String
  token : String
  deriving Repr, DecidableEq

/-- The HTTP response of `createRSVP`. -/
inductive CreateResp : Type where
  | created : DBRow → String → CreateResp
  | conflict : CreateResp
  | serverError : CreateResp
  deriving Repr, DecidableEq

/-- An observable step of the `createRSVP` handler. -/
inductive WriteStep : Type where
  | insertRow : WriteStep
  | publishEvent : WriteStep
  | sendEmailAsync : WriteStep
  deriving Repr, DecidableEq

/-- `createRSVP` after successful validation: `db` is the committed table
state, `dupViolation` models the insert throwing the unique-violation error
'23505', `publishOk` models whether `eventProducer.publish` resolves or
rejects (it logs and rethrows on failure, and the handler awaits it inside
the same `try`). -/
def createRSVP (db : List DBRow) (name email token : String)
    (dupViolation : Bool) (publishOk : Bool) :
    List DBRow × CreateResp × List WriteStep :=
  if dupViolation then
    (db, CreateResp.conflict, [])
  else
    let row : DBRow := ⟨name, email, token⟩
    let db1 := db ++ [row]
    if publishOk then
      (db1, CreateResp.created row token,
       [WriteStep.insertRow, WriteStep.publishEvent, WriteStep.sendEmailAsync])
    else
      (db1, CreateResp.serverError, [WriteStep.insertRow, WriteStep.publishEvent])

/-! ### Auxiliary definitions used by the statements -/

/-- A row of the `RSVPPublic` projection (`SELECT id, name, email, created_at`)
as the page fetch function produces it, with the timestamp in its serialized
form. -/
structure RSVPRow : Type where
  id : Int
  name : String
  email : String
  created_at : String

/-- The JavaScript object for one `RSVPPublic` row. -/
def RSVPRow.toJVal (r : RSVPRow) : JVal :=
  JVal.jobj [("id", JVal.jnum r.id), ("name", JVal.jstr r.name),
             ("email", JVal.jstr r.email), ("created_at", JVal.jstr r.created_at)]

/-- Whether a value is an object carrying the key `k`. -/
def objHasKey (v : JVal) (k : String) : Bool :=
  match v with
  | JVal.jobj fields => (lookupField fields k).isSome
  | _ => false

def isFetchCall : PEff → Bool
  | PEff.fetchCall => true
  | _ => false

def isLockAttempt : PEff → Bool
  | PEff.lockAttempt _ => true
  | _ => false

def sleepMs : PEff → Option Nat
  | PEff.sleep n => some n
  | _ => none

/-- A record shape carrying sensitive fields, as stored in the `rsvps` table
(`token`, `token_expires_at`). -/
def tokenObj : JVal :=
  JVal.jobj [("id", JVal.jnum 1), ("token", JVal.jstr "secret-jwt"),
             ("token_expires_at", JVal.jstr "2026-02-02T00:00:00Z")]

/-- A well-formed `rsvp.created` event payload. -/
def evCreated : EventData :=
  ⟨some 7, some "ann@example.com", some "Ann", some "2026-01-01T00:00:00Z"⟩

/-- A well-formed `rsvp.deleted` event payload. -/
def evDeleted : EventData :=
  ⟨some 9, some "bob@example.com", none, none⟩

/-- A store whose counter currently holds 5. -/
def storeFive : Store := { emptyStore with countVal := some 5 }

/-! ## Theorems -/

/-! ### Shared lemmas -/

theorem getAssoc_setAssoc_self {α β : Type} [DecidableEq α] (k : α) (v : β)
    (l : List (α × β)) : getAssoc k (setAssoc k v l) = some v := by
  induction l with
  | nil => simp [setAssoc, getAssoc]
  | cons hd tl ih =>
    obtain ⟨k', v'⟩ := hd
    by_cases h : k' = k <;> simp [setAssoc, getAssoc, h, ih]

theorem setAssoc_idem {α β : Type} [DecidableEq α] (k : α) (v : β)
    (l : List (α × β)) : setAssoc k v (setAssoc k v l) = setAssoc k v l := by
  induction l with
  | nil => simp [setAssoc]
  | cons hd tl ih =>
    obtain ⟨k', v'⟩ := hd
    by_cases h : k' = k <;> simp [setAssoc, h, ih]

theorem getAssoc_removeAssoc_self {α β : Type} [DecidableEq α] (k : α)
    (l : List (α × β)) : getAssoc k (removeAssoc (β := β) k l) = none := by
  induction l with
  | nil => simp [removeAssoc, getAssoc]
  | cons hd tl ih =>
    obtain ⟨k', v'⟩ := hd
    by_cases h : k' = k <;> simp [removeAssoc, getAssoc, h, ih]

theorem getUserRSVP_setUserRSVP (e : String) (v : JVal) (s : Store) :
    getUserRSVP e (setUserRSVP e v s) = some v := by
  simp [getUserRSVP, setUserRSVP, getAssoc_setAssoc_self]

/-- One counter operation preserves non-negativity of the stored counter. -/
theorem applyCounterOp_nonneg (s : Store) (op : CounterOp)
    (h : ∀ v, s.countVal = some v → 0 ≤ v) :
    ∀ v, (applyCounterOp s op).countVal = some v → 0 ≤ v := by
  cases op with
  | inc =>
    intro v hv
    simp only [applyCounterOp, incrementCount] at hv
    cases hs : s.countVal with
    | none => simp [redisIncr, hs] at hv; omega
    | some w =>
      have hw := h w hs
      simp [redisIncr, hs] at hv
      omega
  | dec =>
    intro v hv
    simp only [applyCounterOp, decrementCount] at hv
    by_cases hn : redisDecr s.countVal < 0
    · simp [hn] at hv; omega
    · simp [hn] at hv; omega

/-- Any sequence of counter operations preserves non-negativity. -/
theorem applyCounterOps_nonneg (ops : List CounterOp) :
    ∀ s : Store, (∀ v, s.countVal = some v → 0 ≤ v) →
      ∀ v, (applyCounterOps s ops).countVal = some v → 0 ≤ v := by
  induction ops with
  | nil => intro s h; simpa [applyCounterOps] using h
  | cons op rest ih =>
    intro s h
    simpa [applyCounterOps, List.foldl] using
      ih (applyCounterOp s op) (applyCounterOp_nonneg s op h)

/-! ### Claim C1 -/

/-- Claim C1: the Atomic Counter is never observably negative.  For every
starting counter state `decrementCount` returns a non-negative integer; a
decrement that would take the stored value below zero leaves the stored value
at zero and returns zero; and after any sequence of
`incrementCount`/`decrementCount` operations from a state whose counter is
absent or non-negative, `getAtomicCount` never returns a negative value. -/
theorem atomic_counter_never_negative :
    (∀ s : Store, 0 ≤ (decrementCount s).2) ∧
    (∀ s : Store, redisDecr s.countVal < 0 →
      (decrementCount s).1.countVal = some 0 ∧ (decrementCount s).2 = 0) ∧
    (∀ (s : Store) (ops : List CounterOp),
      (∀ v, s.countVal = some v → 0 ≤ v) →
      ∀ v, getAtomicCount (applyCounterOps s ops) = some v → 0 ≤ v) := by
  refine ⟨?_, ?_, ?_⟩
  · intro s
    by_cases hn : redisDecr s.countVal < 0 <;> simp [decrementCount, hn]
    omega
  · intro s hn
    simp [decrementCount, hn]
  · intro s ops h v hv
    exact applyCounterOps_nonneg ops s h v hv

/-- Witness for C1 at the empty store (counter absent), with the operation
sequence increment, decrement, decrement. -/
theorem atomic_counter_never_negative_witness :
    0 ≤ (decrementCount emptyStore).2 ∧
    ((decrementCount emptyStore).1.countVal = some 0 ∧ (decrementCount emptyStore).2 = 0) ∧
    (0 : Int) ≤ 0 :=
  ⟨atomic_counter_never_negative.1 emptyStore,
   atomic_counter_never_negative.2.1 emptyStore (by decide),
   atomic_counter_never_negative.2.2 emptyStore [CounterOp.inc, CounterOp.dec, CounterOp.dec]
     (fun _ h => Option.noConfusion h) 0 (by decide)⟩

/-! ### Claim C9 -/

/-- `sanitizeData` is the identity on an `RSVPPublic` row: the projection
keeps exactly the four whitelisted fields, in the same insertion order. -/
theorem sanitizeItem_toJVal (r : RSVPRow) :
    sanitizeItem (RSVPRow.toJVal r) = RSVPRow.toJVal r := by
  simp [sanitizeItem, RSVPRow.toJVal, whitelist, lookupField, getAssoc, List.filterMap]

theorem map_sanitizeItem_rows (rows : List RSVPRow) :
    (rows.map RSVPRow.toJVal).map sanitizeItem = rows.map RSVPRow.toJVal := by
  induction rows with
  | nil => rfl
  | cons r rest ih => rw [List.map_cons, List.map_cons, sanitizeItem_toJVal, ih]

theorem sanitizeData_rows (rows : List RSVPRow) :
    sanitizeData (JVal.jarr (rows.map RSVPRow.toJVal)) =
      some (JVal.jarr (rows.map RSVPRow.toJVal)) := by
  simp only [sanitizeData]
  rw [map_sanitizeItem_rows]

/-- Claim C9: for every `(page, limit)` key and every ordered list of
`RSVPPublic` records, `setCachedPage` followed by `getCachedPage` (within the
TTL, i.e. with no intervening expiry or invalidation) returns the identical
record sequence in the identical order. -/
theorem set_then_get_page_roundtrip (page limit : Nat) (rows : List RSVPRow) (s : Store) :
    getCachedPage page limit
      (setCachedPage page limit (JVal.jarr (rows.map RSVPRow.toJVal)) s) =
    some (JVal.jarr (rows.map RSVPRow.toJVal)) := by
  simp [setCachedPage, getCachedPage, sanitizeData_rows, getAssoc_setAssoc_self]

/-! ### Claim C4 -/

/-- Keys surviving the whitelist projection come from the whitelist. -/
theorem getAssoc_filterMap_mem (g : String → Option JVal) (k : String) (ks : List String)
    (h : (getAssoc k (ks.filterMap fun k' => (g k').map fun v => (k', v))).isSome = true) :
    k ∈ ks := by
  induction ks with
  | nil => simp [getAssoc, List.filterMap] at h
  | cons k' rest ih =>
    cases hg : g k' with
    | none =>
      rw [List.filterMap_cons] at h
      simp only [hg, Option.map_none'] at h
      exact List.mem_cons_of_mem k' (ih h)
    | some v =>
      rw [List.filterMap_cons] at h
      simp only [hg, Option.map_some'] at h
      by_cases hk : k' = k
      · exact hk ▸ List.mem_cons_self k' rest
      · rw [getAssoc, if_neg hk] at h
        exact List.mem_cons_of_mem k' (ih h)

/-- A successful `getAssoc` lookup means the key occurs in the list. -/
theorem getAssoc_isSome_mem (k : String) (l : List (String × JVal))
    (h : (getAssoc k l).isSome = true) : k ∈ l.map Prod.fst := by
  induction l with
  | nil => simp [getAssoc] at h
  | cons p rest ih =>
    obtain ⟨k', v⟩ := p
    by_cases hk : k' = k
    · simp [hk]
    · rw [getAssoc, if_neg hk] at h
      simp [ih h]

/-- Every object produced by `sanitizeItem` carries only whitelisted keys. -/
theorem sanitizeItem_keys_whitelisted (x : JVal) (k : String)
    (h : objHasKey (sanitizeItem x) k = true) : k ∈ whitelist := by
  cases x with
  | jobj fields =>
    simp only [sanitizeItem, objHasKey, lookupField] at h
    exact getAssoc_filterMap_mem (fun k' => lookupField fields k') k whitelist h
  | jarr items => simp [sanitizeItem, objHasKey, lookupField, getAssoc] at h
  | jnull => simp [sanitizeItem, objHasKey] at h
  | jstr s => simp [sanitizeItem, objHasKey] at h
  | jnum n => simp [sanitizeItem, objHasKey] at h
  | jbool b => simp [sanitizeItem, objHasKey] at h

/-- Claim C4 counterexample: a non-array object carrying `token` and
`token_expires_at` fields is stored verbatim by `setCachedPage` (the
non-array branch of `sanitizeData` returns its input unchanged) and by
`setUserRSVP` (which performs no sanitization at all), so fields outside the
whitelist survive into cache entries. -/
theorem cache_whitelist_counterexample :
    getCachedPage 1 20 (setCachedPage 1 20 tokenObj emptyStore) = some tokenObj ∧
    getUserRSVP "ann@example.com" (setUserRSVP "ann@example.com" tokenObj emptyStore) =
      some tokenObj ∧
    objHasKey tokenObj "token" = true ∧
    "token" ∉ whitelist := by
  refine ⟨rfl, getUserRSVP_setUserRSVP _ _ _, rfl, by decide⟩

/-- Claim C4 amended: for array payloads, `setCachedPage` projects every
object item to the whitelist, so no top-level field outside
`id`, `name`, `email`, `created_at` survives into a cached page read back by
`getCachedPage`; and the key-status entry the Invalidation Consumer builds
for a created event contains only whitelisted fields.  Non-array objects pass
through `setCachedPage` unsanitized, and `setUserRSVP` itself stores its
payload verbatim. -/
theorem cache_whitelist_amended (page limit : Nat) (items : List JVal) (s : Store)
    (ev : EventData) :
    (∀ v, getCachedPage page limit (setCachedPage page limit (JVal.jarr items) s) = some v →
       ∃ ys, v = JVal.jarr ys ∧
         ∀ y ∈ ys, ∀ k, objHasKey y k = true → k ∈ whitelist) ∧
    (∀ k, objHasKey (createdUserEntry ev) k = true → k ∈ whitelist) := by
  constructor
  · intro v hv
    simp only [setCachedPage, getCachedPage, sanitizeData, getAssoc_setAssoc_self,
      Option.some.injEq] at hv
    refine ⟨(items.map sanitizeItem).map sanitizeItem, hv.symm, ?_⟩
    intro y hy k hk
    simp only [List.mem_map] at hy
    obtain ⟨x, _, rfl⟩ := hy
    exact sanitizeItem_keys_whitelisted x k hk
  · intro k hk
    simp only [objHasKey, createdUserEntry, lookupField] at hk
    have hmem := getAssoc_isSome_mem k _ hk
    cases ev with
    | mk rid em nm ca =>
      cases rid <;> cases em <;> cases nm <;> cases ca <;> simp_all [whitelist] <;> tauto

/-- Witness for the amended C4 at a page holding token-carrying objects: the
page read back from the cache has the token fields projected away. -/
theorem cache_whitelist_amended_witness :
    ∃ ys, JVal.jarr [JVal.jobj [("id", JVal.jnum 1)], JVal.jobj [("id", JVal.jnum 2)]]
        = JVal.jarr ys ∧ ∀ y ∈ ys, ∀ k, objHasKey y k = true → k ∈ whitelist :=
  (cache_whitelist_amended 1 20
      [JVal.jobj [("id", JVal.jnum 1), ("token", JVal.jstr "secret-jwt")],
       JVal.jobj [("id", JVal.jnum 2), ("token", JVal.jstr "other-jwt")]]
      emptyStore evCreated).1
    (JVal.jarr [JVal.jobj [("id", JVal.jnum 1)], JVal.jobj [("id", JVal.jnum 2)]]) rfl

/-! ### Claim C3 -/

/-- Claim C3 counterexample: starting from a counter holding 5, applying the
Invalidation Consumer's created-event handler twice leaves the Atomic Counter
absent (`handleRSVPCreated` increments and then immediately invalidates the
count key), not at 6 = one higher than before the first application. -/
theorem created_twice_counterexample :
    getAtomicCount (handleRSVPCreated evCreated
        (handleRSVPCreated evCreated storeFive).1).1 = none ∧
    getAtomicCount (handleRSVPCreated evCreated
        (handleRSVPCreated evCreated storeFive).1).1 ≠ some 6 := by
  have h : getAtomicCount (handleRSVPCreated evCreated
      (handleRSVPCreated evCreated storeFive).1).1 = none := rfl
  exact ⟨h, by rw [h]; simp⟩

/-- Claim C3 amended: applying the created-event handler twice for the same
event leaves the cache store in exactly the state one application leaves it
in (the handler is idempotent as a state transition), and in that state the
Atomic Counter is absent — invalidated, to be recomputed from the source of
truth on the next count read — rather than one higher than before. -/
theorem created_twice_amended (ev : EventData) (s : Store) :
    (handleRSVPCreated ev (handleRSVPCreated ev s).1).1 = (handleRSVPCreated ev s).1 ∧
    getAtomicCount (handleRSVPCreated ev s).1 = none := by
  by_cases hg : (truthyStr ev.email && truthyNum ev.rsvpId) = true <;>
    simp [handleRSVPCreated, incrementCount, invalidateCount, invalidateAllPageCaches,
      setUserRSVP, getAtomicCount, hg, setAssoc_idem]

/-! ### Claim C8 -/

/-- Claim C8: the deleted/cancelled-event handler performs, in order, a
counter decrement, a counter invalidation, a paginated-cache invalidation and
a key-status invalidation for the event's identity, and afterwards the
key-status read for that identity returns absent and the paginated cache is
empty. -/
theorem deleted_event_invalidates (ev : EventData) (s : Store)
    (h : truthyStr ev.email = true) :
    (handleRSVPDeleted ev s).2 =
      [CacheOp.decr (decrementCount s).2, CacheOp.delCount, CacheOp.clearPages,
       CacheOp.delUser (normalizeEmail (ev.email.getD ""))] ∧
    getUserRSVP (ev.email.getD "") (handleRSVPDeleted ev s).1 = none ∧
    (handleRSVPDeleted ev s).1.pages = [] ∧
    getAtomicCount (handleRSVPDeleted ev s).1 = none := by
  simp [handleRSVPDeleted, decrementCount, invalidateCount, invalidateAllPageCaches,
    invalidateUserRSVP, getUserRSVP, getAtomicCount, h, getAssoc_removeAssoc_self]

/-- Witness for C8 at a concrete deleted event and a counter holding 5. -/
theorem deleted_event_invalidates_witness :
    (handleRSVPDeleted evDeleted storeFive).2 =
      [CacheOp.decr (decrementCount storeFive).2, CacheOp.delCount, CacheOp.clearPages,
       CacheOp.delUser (normalizeEmail (evDeleted.email.getD ""))] ∧
    getUserRSVP (evDeleted.email.getD "") (handleRSVPDeleted evDeleted storeFive).1 = none ∧
    (handleRSVPDeleted evDeleted storeFive).1.pages = [] ∧
    getAtomicCount (handleRSVPDeleted evDeleted storeFive).1 = none :=
  deleted_event_invalidates evDeleted storeFive (by decide)

/-! ### Claim C2 -/

/-- Claim C2: in `getCachedPageWithLock`, on a cache miss with the lock
acquired, the cache is double-checked: a populated double-check is returned
with no fetch call (and the lock released); otherwise the fetch function is
called exactly once, its result is passed to `setCachedPage` — which stores
the sanitized result under the `(page, limit)` key with the page TTL of 60
seconds — the lock is released, and the fetch result is returned. -/
theorem page_lock_double_check (page limit : Nat) (fetch : Except Unit JVal)
    (v d w : JVal) (rest : List (Option JVal)) (ls : List Bool) (st : Store) :
    getCachedPageWithLock page limit fetch (none :: some v :: rest) (true :: ls) =
      (Except.ok v,
       [PEff.readPage, PEff.lockAttempt true, PEff.readPage, PEff.releaseLock]) ∧
    List.countP isFetchCall
      [PEff.readPage, PEff.lockAttempt true, PEff.readPage, PEff.releaseLock] = 0 ∧
    getCachedPageWithLock page limit (Except.ok d) (none :: none :: rest) (true :: ls) =
      (Except.ok d,
       [PEff.readPage, PEff.lockAttempt true, PEff.readPage, PEff.fetchCall,
        PEff.setPage page limit d, PEff.releaseLock]) ∧
    List.countP isFetchCall
      [PEff.readPage, PEff.lockAttempt true, PEff.readPage, PEff.fetchCall,
       PEff.setPage page limit d, PEff.releaseLock] = 1 ∧
    (sanitizeData d = some w →
      getAssoc (page, limit) (setCachedPage page limit d st).pages =
        some (w, ATTENDEE_PAGE_TTL)) := by
  refine ⟨rfl, ?_, rfl, ?_, ?_⟩
  · simp [List.countP, List.countP.go, isFetchCall]
  · simp [List.countP, List.countP.go, isFetchCall]
  · intro h
    simp [setCachedPage, h, getAssoc_setAssoc_self]

/-- Witness for C2 with an empty page payload. -/
theorem page_lock_double_check_witness :
    getCachedPageWithLock 1 20 (Except.ok (JVal.jarr [])) [none, some (JVal.jarr [])]
        [true] =
      (Except.ok (JVal.jarr []),
       [PEff.readPage, PEff.lockAttempt true, PEff.readPage, PEff.releaseLock]) ∧
    getCachedPageWithLock 1 20 (Except.ok (JVal.jarr [])) [none, none] [true] =
      (Except.ok (JVal.jarr []),
       [PEff.readPage, PEff.lockAttempt true, PEff.readPage, PEff.fetchCall,
        PEff.setPage 1 20 (JVal.jarr []), PEff.releaseLock]) ∧
    getAssoc (1, 20) (setCachedPage 1 20 (JVal.jarr []) emptyStore).pages =
      some (JVal.jarr [], ATTENDEE_PAGE_TTL) :=
  ⟨(page_lock_double_check 1 20 (Except.ok (JVal.jarr [])) (JVal.jarr []) (JVal.jarr [])
      (JVal.jarr []) [] [] emptyStore).1,
   (page_lock_double_check 1 20 (Except.ok (JVal.jarr [])) (JVal.jarr []) (JVal.jarr [])
      (JVal.jarr []) [] [] emptyStore).2.2.1,
   (page_lock_double_check 1 20 (Except.ok (JVal.jarr [])) (JVal.jarr []) (JVal.jarr [])
      (JVal.jarr []) [] [] emptyStore).2.2.2.2 rfl⟩

/-! ### Claim C5 -/

/-- Claim C5: when the cache misses and the page lock is never acquired,
`getCachedPageWithLock` makes exactly `MAX_RETRY_ATTEMPTS = 3` lock attempts,
backing off `RETRY_DELAY_MS * attempt` milliseconds between attempts (100 ms
then 200 ms, i.e. doubling); after the final failure it returns the
last-known cached entry for the `(page, limit)` key if one exists, and
otherwise throws the lock-unavailability error. -/
theorem page_lock_retry_fallback (page limit : Nat) (fetch : Except Unit JVal)
    (r3 : Option JVal) (rest : List (Option JVal)) (ls : List Bool) :
    (∀ v, r3 = some v →
      getCachedPageWithLock page limit fetch (none :: none :: none :: r3 :: rest)
          (false :: false :: false :: ls) =
        (Except.ok v,
         [PEff.readPage, PEff.lockAttempt false, PEff.sleep 100,
          PEff.readPage, PEff.lockAttempt false, PEff.sleep 200,
          PEff.readPage, PEff.lockAttempt false, PEff.readPage])) ∧
    (r3 = none →
      getCachedPageWithLock page limit fetch (none :: none :: none :: r3 :: rest)
          (false :: false :: false :: ls) =
        (Except.error PageErr.lockFailed,
         [PEff.readPage, PEff.lockAttempt false, PEff.sleep 100,
          PEff.readPage, PEff.lockAttempt false, PEff.sleep 200,
          PEff.readPage, PEff.lockAttempt false, PEff.readPage])) ∧
    MAX_RETRY_ATTEMPTS = 3 ∧
    List.countP isLockAttempt
      [PEff.readPage, PEff.lockAttempt false, PEff.sleep 100,
       PEff.readPage, PEff.lockAttempt false, PEff.sleep 200,
       PEff.readPage, PEff.lockAttempt false, PEff.readPage] = 3 ∧
    List.filterMap sleepMs
      [PEff.readPage, PEff.lockAttempt false, PEff.sleep 100,
       PEff.readPage, PEff.lockAttempt false, PEff.sleep 200,
       PEff.readPage, PEff.lockAttempt false, PEff.readPage] =
      [RETRY_DELAY_MS * 1, RETRY_DELAY_MS * 2] := by
  refine ⟨?_, ?_, rfl, ?_, ?_⟩
  · intro v hv; subst hv; rfl
  · intro hv; subst hv; rfl
  · simp [List.countP, List.countP.go, isLockAttempt]
  · simp [List.filterMap, sleepMs, RETRY_DELAY_MS]

/-- Witness for C5 in both fallback branches: a stale entry is served when
one exists, the unavailability error is thrown when none does. -/
theorem page_lock_retry_fallback_witness :
    getCachedPageWithLock 1 20 (Except.ok (JVal.jarr []))
        [none, none, none, some (JVal.jarr [])] [false, false, false] =
      (Except.ok (JVal.jarr []),
       [PEff.readPage, PEff.lockAttempt false, PEff.sleep 100,
        PEff.readPage, PEff.lockAttempt false, PEff.sleep 200,
        PEff.readPage, PEff.lockAttempt false, PEff.readPage]) ∧
    getCachedPageWithLock 1 20 (Except.ok (JVal.jarr []))
        [none, none, none, none] [false, false, false] =
      (Except.error PageErr.lockFailed,
       [PEff.readPage, PEff.lockAttempt false, PEff.sleep 100,
        PEff.readPage, PEff.lockAttempt false, PEff.sleep 200,
        PEff.readPage, PEff.lockAttempt false, PEff.readPage]) :=
  ⟨(page_lock_retry_fallback 1 20 (Except.ok (JVal.jarr [])) (some (JVal.jarr [])) [] []).1
      (JVal.jarr []) rfl,
   (page_lock_retry_fallback 1 20 (Except.ok (JVal.jarr [])) none [] []).2.1 rfl⟩

/-! ### Claim C6 -/

/-- Claim C6 counterexample: with the Atomic Counter present and holding 0
(a `Get` hit — redis returns the truthy string `"0"`), `getCachedCountWithLock`
does NOT return the cached value: its guard `cached !== null && cached > 0`
treats the stored 0 as a miss, so it acquires the lock, invokes the fetch
function, and returns the fetched 42 instead of the cached 0. -/
theorem count_lock_counterexample :
    getCachedCountWithLock (Except.ok 42) [some 0, some 0] true =
      (Except.ok 42,
       [CEff.readCount, CEff.lockAttempt true, CEff.readCount, CEff.fetchCall,
        CEff.setCount 42, CEff.releaseLock]) ∧
    CEff.fetchCall ∈ (getCachedCountWithLock (Except.ok 42) [some 0, some 0] true).2 ∧
    (getCachedCountWithLock (Except.ok 42) [some 0, some 0] true).1 ≠ Except.ok 0 := by
  have h1 : (getCachedCountWithLock (Except.ok 42) [some 0, some 0] true).1 =
      Except.ok 42 := rfl
  exact ⟨rfl, by decide, by rw [h1]; simp⟩

/-- Claim C6 amended: `getCachedCountWithLock` returns the cached count
without invoking the fetch function only when the counter is present AND
strictly positive (a stored 0 is treated as a miss); when there is no
positive cached value and the lock is acquired it double-checks and then
invokes the fetch function exactly once, `setAtomicCount`s the fetched value,
releases the lock and returns that value; when the lock is not acquired it
returns a stale positive counter value if one appears, else throws the
count-unavailable error. -/
theorem count_lock_amended (fetch : Except Unit Int) (c v : Int)
    (r2 : Option Int) (rest : List (Option Int)) :
    (0 < v → getCachedCountWithLock fetch (some v :: rest) true =
      (Except.ok v, [CEff.readCount])) ∧
    (countHit r2 = none → getCachedCountWithLock (Except.ok c) (none :: r2 :: rest) true =
      (Except.ok c,
       [CEff.readCount, CEff.lockAttempt true, CEff.readCount, CEff.fetchCall,
        CEff.setCount c, CEff.releaseLock])) ∧
    (0 < v → getCachedCountWithLock fetch (none :: some v :: rest) true =
      (Except.ok v,
       [CEff.readCount, CEff.lockAttempt true, CEff.readCount, CEff.releaseLock])) ∧
    (0 < v → getCachedCountWithLock fetch (none :: some v :: rest) false =
      (Except.ok v, [CEff.readCount, CEff.lockAttempt false, CEff.readCount])) ∧
    (countHit r2 = none → getCachedCountWithLock fetch (none :: r2 :: rest) false =
      (Except.error CountErr.lockFailed,
       [CEff.readCount, CEff.lockAttempt false, CEff.readCount])) := by
  have hn : countHit none = none := rfl
  refine ⟨?_, ?_, ?_, ?_, ?_⟩
  · intro h; simp [getCachedCountWithLock, nextRead, countHit, h]
  · intro h; simp [getCachedCountWithLock, nextRead, h, hn]
  · intro h; simp [getCachedCountWithLock, nextRead, countHit, h]
  · intro h; simp [getCachedCountWithLock, nextRead, countHit, h]
  · intro h; simp [getCachedCountWithLock, nextRead, h, hn]

/-- Witness for the amended C6 at a cached 5, a fetched 42 and an absent
double-check. -/
theorem count_lock_amended_witness :
    getCachedCountWithLock (Except.ok 42) [some 5] true = (Except.ok 5, [CEff.readCount]) ∧
    getCachedCountWithLock (Except.ok 42) [none, none] true =
      (Except.ok 42,
       [CEff.readCount, CEff.lockAttempt true, CEff.readCount, CEff.fetchCall,
        CEff.setCount 42, CEff.releaseLock]) ∧
    getCachedCountWithLock (Except.ok 42) [none, some 5] true =
      (Except.ok 5,
       [CEff.readCount, CEff.lockAttempt true, CEff.readCount, CEff.releaseLock]) ∧
    getCachedCountWithLock (Except.ok 42) [none, some 5] false =
      (Except.ok 5, [CEff.readCount, CEff.lockAttempt false, CEff.readCount]) ∧
    getCachedCountWithLock (Except.ok 42) [none, none] false =
      (Except.error CountErr.lockFailed,
       [CEff.readCount, CEff.lockAttempt false, CEff.readCount]) :=
  ⟨(count_lock_amended (Except.ok 42) 42 5 none []).1 (by decide),
   (count_lock_amended (Except.ok 42) 42 5 none []).2.1 rfl,
   (count_lock_amended (Except.ok 42) 42 5 none []).2.2.1 (by decide),
   (count_lock_amended (Except.ok 42) 42 5 none []).2.2.2.1 (by decide),
   (count_lock_amended (Except.ok 42) 42 5 none []).2.2.2.2 rfl⟩

/-! ### Claim C7 -/

/-- Claim C7 counterexample: when `eventProducer.publish` rejects after the
insert committed, `createRSVP` answers 500 — not the successful 201 creation
response — even though the inserted row remains committed in the table.  The
handler awaits `publish` inside its `try`, and `publish` logs and rethrows. -/
theorem publish_failure_counterexample :
    (createRSVP [] "Ann" "ann@example.com" "tok123" false false).2.1 =
      CreateResp.serverError ∧
    (createRSVP [] "Ann" "ann@example.com" "tok123" false false).2.1 ≠
      CreateResp.created ⟨"Ann", "ann@example.com", "tok123"⟩ "tok123" ∧
    (⟨"Ann", "ann@example.com", "tok123"⟩ : DBRow) ∈
      (createRSVP [] "Ann" "ann@example.com" "tok123" false false).1 := by
  exact ⟨rfl, by decide, by decide⟩

/-- Claim C7 amended: the domain event is published only after the database
insert has committed (every publish step is preceded by a successful insert
whose row is in the committed table), and a publish failure does not roll
back the committed insert — the row remains — but it does block the
user-facing response: the caller receives the 500 server error instead of the
201 creation response, which is returned only when publish succeeds. -/
theorem publish_after_commit_amended (db : List DBRow) (n e t : String)
    (dup pub : Bool) :
    (WriteStep.publishEvent ∈ (createRSVP db n e t dup pub).2.2 →
      dup = false ∧
      (⟨n, e, t⟩ : DBRow) ∈ (createRSVP db n e t dup pub).1 ∧
      (createRSVP db n e t dup pub).2.2.take 2 =
        [WriteStep.insertRow, WriteStep.publishEvent]) ∧
    (createRSVP db n e t false false).1 = db ++ [⟨n, e, t⟩] ∧
    (createRSVP db n e t false false).2.1 = CreateResp.serverError ∧
    (createRSVP db n e t false true).2.1 = CreateResp.created ⟨n, e, t⟩ t := by
  refine ⟨?_, ?_, ?_, ?_⟩
  · intro hmem
    cases dup with
    | true => simp [createRSVP] at hmem
    | false =>
      cases pub with
      | true => simp [createRSVP]
      | false => simp [createRSVP]
  · simp [createRSVP]
  · simp [createRSVP]
  · simp [createRSVP]

/-- Witness for the amended C7 on an empty table with a failing publish. -/
theorem publish_after_commit_amended_witness :
    (false = false ∧
      (⟨"Ann", "ann@example.com", "tok123"⟩ : DBRow) ∈
        (createRSVP [] "Ann" "ann@example.com" "tok123" false true).1 ∧
      (createRSVP [] "Ann" "ann@example.com" "tok123" false true).2.2.take 2 =
        [WriteStep.insertRow, WriteStep.publishEvent]) ∧
    (createRSVP [] "Ann" "ann@example.com" "tok123" false false).1 =
      [] ++ [⟨"Ann", "ann@example.com", "tok123"⟩] ∧
    (createRSVP [] "Ann" "ann@example.com" "tok123" false false).2.1 =
      CreateResp.serverError ∧
    (createRSVP [] "Ann" "ann@example.com" "tok123" false true).2.1 =
      CreateResp.created ⟨"Ann", "ann@example.com", "tok123"⟩ "tok123" :=
  ⟨(publish_after_commit_amended [] "Ann" "ann@example.com" "tok123" false true).1
      (by decide),
   (publish_after_commit_amended [] "Ann" "ann@example.com" "tok123" false true).2.1,
   (publish_after_commit_amended [] "Ann" "ann@example.com" "tok123" false true).2.2.1,
   (publish_after_commit_amended [] "Ann" "ann@example.com" "tok123" false true).2.2.2⟩

/-! ### Claim C10 -/

/-- Claim C10: for every raw query-string input to `getAllRSVPs` — missing,
non-numeric, zero, negative, or oversized — the effective page is at least 1
(defaulting to 1) and the effective limit lies in [1, 100] (defaulting to
20), so every `(page, limit)` key passed to the paginated cache satisfies
these bounds. -/
theorem pagination_params_bounded (pq lq : Option String) :
    1 ≤ effectivePage pq ∧
    1 ≤ effectiveLimit lq ∧ effectiveLimit lq ≤ 100 ∧
    effectivePage none = 1 ∧ effectiveLimit none = 20 := by
  refine ⟨le_max_left 1 _, le_min (by norm_num) (le_max_left 1 _),
    min_le_left _ _, by decide, by decide⟩

end RSVPCache
